import Mathlib

/-!
Verification development for the scholar-ai research assistant.

The definitions below are a shallow embedding of the request/response/retry
flow of the repository, translated from the revision of `performResearch`
that implements the full error classification (the service function embedded
in `src/components/ResearchCard.tsx`, identical in structure to
`src/services/geminiService.ts`), together with the markdown export of
`ResearchCard.tsx` and the history update of `src/App.tsx`.

JavaScript `x || d` on strings (falsy for `undefined` and `""`) is modelled
by `strOrDefault`, `message.includes(p)` by `substrOf`, and the ambient
clock by an explicit `now : String` parameter.
-/

set_option maxRecDepth 4000

namespace ScholarAI

/-- Boolean prefix test on character lists, mirroring JS string matching. -/
def isPrefixChars : List Char → List Char → Bool
  | [], _ => true
  | _ :: _, [] => false
  | a :: as, b :: bs => a == b && isPrefixChars as bs

/-- Boolean contiguous-subsequence test on character lists. -/
def containsSeq (pat : List Char) : List Char → Bool
  | [] => pat.isEmpty
  | b :: bs => isPrefixChars pat (b :: bs) || containsSeq pat bs

/-- `substrOf pat s` models JavaScript `s.includes(pat)`. -/
def substrOf (pat s : String) : Bool :=
  containsSeq pat.data s.data

/-- ASCII lower-casing of a string, modelling JS `toLowerCase` on the
messages that occur in this code base. -/
def lowerStr (s : String) : String :=
  ⟨s.data.map Char.toLower⟩

/-- `strOrDefault s d` models the JS idiom `s || d` on an optionally
present string: both `undefined` and `""` fall back to the default. -/
def strOrDefault (s : Option String) (dflt : String) : String :=
  match s with
  | none => dflt
  | some t => if t = "" then dflt else t

/-- Trim, modelling JS `String.prototype.trim` (whitespace on both ends). -/
def isWsChar (c : Char) : Bool :=
  c == ' ' || c == '\t' || c == '\n' || c == '\r'

def trimStr (s : String) : String :=
  ⟨((s.data.dropWhile isWsChar).reverse.dropWhile isWsChar).reverse⟩

/-- The four research modes of `src/types.ts`. -/
inductive ResearchMode
  | SYNTHESIS
  | LIT_REVIEW
  | CRITICAL_ANALYSIS
  | HYPOTHESIS_GEN
deriving DecidableEq

/-- `GroundingSource` of `src/types.ts`: a citation. -/
structure GroundingSource where
  title : String
  uri : String
deriving DecidableEq

/-- `ResearchResponse` of `src/types.ts`. -/
structure ResearchResponse where
  query : Option String
  content : String
  sources : List GroundingSource
  timestamp : String
  imageUrl : Option String
deriving DecidableEq

/-- `SessionState` of `src/types.ts`. -/
structure SessionState where
  history : List ResearchResponse
  isLoading : Bool
  error : Option String
deriving DecidableEq

/-- The per-mode system instruction map of `performResearch`. -/
def systemInstructions : ResearchMode → String
  | .SYNTHESIS => "Act as a Senior Research Scientist. Synthesize current scientific findings on the provided topic. Identify consensus and conflicting data."
  | .LIT_REVIEW => "Act as an Academic Librarian. Provide a structured literature review outline with key thematic clusters."
  | .CRITICAL_ANALYSIS => "Act as a Peer Reviewer. Critically evaluate methodologies and potential biases in the field."
  | .HYPOTHESIS_GEN => "Act as a Principal Investigator. Generate novel research hypotheses based on current gaps."

/-- The single tool attached to the text request (`tools: [{googleSearch: {}}]`). -/
inductive Tool
  | googleSearch
deriving DecidableEq

structure ThinkingConfig where
  thinkingBudget : Nat
deriving DecidableEq

structure RequestConfig where
  systemInstruction : String
  tools : List Tool
  thinkingConfig : ThinkingConfig
deriving DecidableEq

/-- The provider request composed by `performResearch` for the text call. -/
structure ProviderRequest where
  model : String
  contents : String
  config : RequestConfig
deriving DecidableEq

/-- The argument of `ai.models.generateContent` in `performResearch`:
model, contents and config as literally composed from query and mode. -/
def composeRequest (query : String) (mode : ResearchMode) : ProviderRequest :=
  { model := "gemini-3-flash-preview"
    contents := query
    config :=
      { systemInstruction :=
          systemInstructions mode ++ " Use professional academic tone. Provide citations where possible."
        tools := [Tool.googleSearch]
        thinkingConfig := { thinkingBudget := 10000 } } }

/-- `.web` field of a grounding chunk: optional title and uri. -/
structure WebInfo where
  title : Option String
  uri : Option String
deriving DecidableEq

/-- A grounding chunk, optionally carrying a `.web` field. -/
structure GroundingChunk where
  web : Option WebInfo
deriving DecidableEq

structure GroundingMetadata where
  groundingChunks : Option (List GroundingChunk)
deriving DecidableEq

structure Candidate where
  groundingMetadata : Option GroundingMetadata
deriving DecidableEq

/-- The shape of a successful text-generation response. -/
structure ProviderResponse where
  text : Option String
  candidates : List Candidate
deriving DecidableEq

/-- `textResponse.candidates?.[0]?.groundingMetadata?.groundingChunks || []`. -/
def chunksOf (r : ProviderResponse) : List GroundingChunk :=
  match r.candidates.head? with
  | none => []
  | some c =>
    match c.groundingMetadata with
    | none => []
    | some g => g.groundingChunks.getD []

/-- `textResponse.text || "No insights could be generated for this query."`. -/
def contentOf (r : ProviderResponse) : String :=
  strOrDefault r.text "No insights could be generated for this query."

/-- The map applied to each chunk that passed the `.web` filter:
`{ title: chunk.web?.title || "Research Reference", uri: chunk.web?.uri || "" }`. -/
def citationOfChunk (c : GroundingChunk) : GroundingSource :=
  { title := strOrDefault (c.web.bind (fun w => w.title)) "Research Reference"
    uri := strOrDefault (c.web.bind (fun w => w.uri)) "" }

/-- `groundingChunks.filter(chunk => chunk.web).map(...)`. -/
def sourcesOf (r : ProviderResponse) : List GroundingSource :=
  ((chunksOf r).filter (fun c => c.web.isSome)).map citationOfChunk

/-- An error thrown by the provider: optional message plus
`error.status || 0`. -/
structure ApiError where
  message : Option String
  status : Nat
deriving DecidableEq

/-- `error.message?.toLowerCase() || ""`. -/
def lowerMsg (e : ApiError) : String :=
  lowerStr (e.message.getD "")

/-- `status === 429 || message.includes("429") || message.includes("quota") || message.includes("rate limit")`. -/
def isRateLimit (e : ApiError) : Bool :=
  e.status == 429 || substrOf "429" (lowerMsg e) || substrOf "quota" (lowerMsg e) ||
    substrOf "rate limit" (lowerMsg e)

/-- `status === 401 || status === 403 || message.includes("key") || message.includes("unauthorized")`. -/
def isAuthError (e : ApiError) : Bool :=
  e.status == 401 || e.status == 403 || substrOf "key" (lowerMsg e) ||
    substrOf "unauthorized" (lowerMsg e)

/-- `message.includes("fetch") || message.includes("network") || message.includes("timeout")`. -/
def isConnectivityError (e : ApiError) : Bool :=
  substrOf "fetch" (lowerMsg e) || substrOf "network" (lowerMsg e) ||
    substrOf "timeout" (lowerMsg e)

/-- The classified error kinds of the handler (section 7 of the design). -/
inductive ErrorKind
  | ConfigurationMissing
  | RateLimitExceeded
  | AuthenticationFailed
  | ConnectivityFailed
  | ProviderUnavailable
  | UnknownSynthesisError (msg : String)
deriving DecidableEq

/-- The classification performed by the catch block once the rate-limit
branch did not apply: authentication, then connectivity, then 5xx,
then the unknown fallback carrying `error.message || <default>`. -/
def classifyError (e : ApiError) : ErrorKind :=
  if isAuthError e then .AuthenticationFailed
  else if isConnectivityError e then .ConnectivityFailed
  else if 500 ≤ e.status then .ProviderUnavailable
  else .UnknownSynthesisError
    (strOrDefault e.message "A non-recoverable error occurred during data extraction.")

/-- The user-facing message thrown for each error kind. -/
def errorMessage : ErrorKind → String
  | .ConfigurationMissing => "SEC_CONFIG_MISSING: The system\x27s cryptographic identity (API Key) is not configured. Please check environment variables."
  | .RateLimitExceeded => "RATE_LIMIT: Research core is saturated with high-frequency requests. Please standby for 60 seconds."
  | .AuthenticationFailed => "AUTH_FAULT: Access credentials rejected by Neural Core. Verify API configuration and project permissions."
  | .ConnectivityFailed => "LINK_ERROR: Significant packet loss or network disruption detected. Check your local uplink."
  | .ProviderUnavailable => "CORE_FAULT: Global inference engine is currently undergoing maintenance or experiencing heavy load. Retry in 10-30 seconds."
  | .UnknownSynthesisError m => "SYNTHESIS_ERROR: " ++ m

/-- Outcome of one text-generation attempt against the provider. -/
inductive AttemptOutcome
  | success (r : ProviderResponse)
  | failure (e : ApiError)

/-- A part of the image response, optionally carrying inline base64 data. -/
structure ImgPart where
  inlineData : Option String
deriving DecidableEq

structure ImgContent where
  parts : List ImgPart
deriving DecidableEq

structure ImgCandidate where
  content : ImgContent
deriving DecidableEq

/-- Outcome of the secondary image-generation call: a thrown error, or a
response carrying a candidate list. -/
inductive ImageOutcome
  | failure
  | success (candidates : List ImgCandidate)

/-- The body of the inner try of `performResearch`: walk
`imgResponse.candidates[0].content.parts`, take the first part with
`inlineData` and wrap it as a data URI.  Accessing `candidates[0]` of an
empty list throws in JS; that throw is caught by the inner catch, so both
it and a thrown request error yield no image. -/
def imageUrlOf : ImageOutcome → Option String
  | .failure => none
  | .success cands =>
    match cands.head? with
    | none => none
    | some c =>
      match c.content.parts.find? (fun p => p.inlineData.isSome) with
      | none => none
      | some p => p.inlineData.map (fun d => "data:image/png;base64," ++ d)

instance {ε α : Type} [DecidableEq ε] [DecidableEq α] : DecidableEq (Except ε α) := fun x y =>
  match x, y with
  | .ok a, .ok b =>
    if h : a = b then isTrue (by rw [h]) else isFalse (by intro hc; cases hc; exact h rfl)
  | .ok _, .error _ => isFalse (by intro hc; cases hc)
  | .error _, .ok _ => isFalse (by intro hc; cases hc)
  | .error a, .error b =>
    if h : a = b then isTrue (by rw [h]) else isFalse (by intro hc; cases hc; exact h rfl)

/-- Trace of one logical research call: final result, number of provider
text attempts issued, backoff waits performed (in ms, in order), and
number of image requests issued. -/
structure RunTrace where
  result : Except ErrorKind ResearchResponse
  attempts : Nat
  waits : List Nat
  imageAttempts : Nat
deriving DecidableEq

/-- The recursive part of `performResearch`, from a given attempt counter:
on success extract content/sources and make one best-effort image request;
on a rate-limit failure with `attempt < 3` wait `2 ^ attempt * 3000` ms and
recurse with `attempt + 1`; otherwise throw the classified error. -/
def performResearchFrom (provider : Nat → AttemptOutcome) (img : ImageOutcome)
    (now : String) (attempt : Nat) : RunTrace :=
  match provider attempt with
  | .success r =>
    { result := .ok
        { query := none
          content := contentOf r
          sources := sourcesOf r
          timestamp := now
          imageUrl := imageUrlOf img }
      attempts := 1
      waits := []
      imageAttempts := 1 }
  | .failure e =>
    if isRateLimit e then
      if h : attempt < 3 then
        let rest := performResearchFrom provider img now (attempt + 1)
        { result := rest.result
          attempts := rest.attempts + 1
          waits := (2 ^ attempt * 3000) :: rest.waits
          imageAttempts := rest.imageAttempts }
      else
        { result := .error .RateLimitExceeded
          attempts := 1
          waits := []
          imageAttempts := 0 }
    else
      { result := .error (classifyError e)
        attempts := 1
        waits := []
        imageAttempts := 0 }
termination_by 4 - attempt
decreasing_by omega

/-- `!apiKey`: the credential is missing when absent or the empty string. -/
def keyMissing : Option String → Bool
  | none => true
  | some s => s == ""

/-- Top level of `performResearch`: fail closed when the credential is
missing (before any provider request), otherwise run from attempt 0. -/
def performResearch (apiKey : Option String) (provider : Nat → AttemptOutcome)
    (img : ImageOutcome) (now : String) : RunTrace :=
  if keyMissing apiKey then
    { result := .error .ConfigurationMissing
      attempts := 0
      waits := []
      imageAttempts := 0 }
  else
    performResearchFrom provider img now 0

/-- `Array.prototype.join('\n')` on the rendered source links. -/
def joinLines : List String → String
  | [] => ""
  | [s] => s
  | s :: rest => s ++ "\n" ++ joinLines rest

/-- The markdown line rendered for one citation. -/
def sourceLink (s : GroundingSource) : String :=
  "- [" ++ s.title ++ "](" ++ s.uri ++ ")"

/-- `fileContent` built by `handleDownloadMarkdown` of `ResearchCard.tsx`. -/
def markdownExport (data : ResearchResponse) : String :=
  "# ScholarPulse Research Findings\n\n" ++
    "**Generated on:** " ++ data.timestamp ++ "\n\n" ++
    "## Analysis\n\n" ++ data.content ++ "\n\n" ++
    "## References\n\n" ++
    (strOrDefault (some (joinLines (data.sources.map sourceLink)))
      "No external references cited.")

/-- The state transition of `handleResearch` in `src/App.tsx` for one
submission, given the outcome of the awaited `performResearch` call:
guard on the trimmed query, set loading and clear the error, then either
prepend the new result (tagged with the query) or record the error text. -/
def handleResearch (st : SessionState) (query : String)
    (outcome : Except ErrorKind ResearchResponse) : SessionState :=
  let currentQuery := trimStr query
  if currentQuery = "" then st
  else
    let st1 : SessionState := { st with isLoading := true, error := none }
    match outcome with
    | .ok result =>
      { st1 with
          history := { result with query := some currentQuery } :: st1.history
          isLoading := false }
    | .error k =>
      { st1 with isLoading := false, error := some (errorMessage k) }

/-! Auxiliary lemmas about the string model. -/

theorem isPrefixChars_append (pat rest : List Char) : isPrefixChars pat (pat ++ rest) = true := by
  induction pat with
  | nil => rfl
  | cons a as ih => simp [isPrefixChars, ih]

theorem containsSeq_self_append (pat rest : List Char) : containsSeq pat (pat ++ rest) = true := by
  cases pat with
  | nil => cases rest <;> simp [containsSeq, isPrefixChars]
  | cons a as =>
    have hp := isPrefixChars_append (a :: as) rest
    simp [containsSeq]
    left
    simpa using hp

theorem containsSeq_append_left (pat pre l : List Char) (h : containsSeq pat l = true) :
    containsSeq pat (pre ++ l) = true := by
  induction pre with
  | nil => exact h
  | cons c cs ih => simp [containsSeq, ih]

theorem data_append (a b : String) : (a ++ b).data = a.data ++ b.data := by
  cases a; cases b; rfl

theorem substrOf_joinLines (s : String) (links : List String) (h : s ∈ links) :
    substrOf s (joinLines links) = true := by
  induction links with
  | nil => cases h
  | cons x rest ih =>
    cases h with
    | head =>
      cases rest with
      | nil =>
        have h2 := containsSeq_self_append s.data []
        rw [List.append_nil] at h2
        simpa [substrOf, joinLines] using h2
      | cons y ys =>
        show substrOf s (joinLines (s :: y :: ys)) = true
        simp only [substrOf, joinLines, data_append, List.append_assoc]
        exact containsSeq_self_append s.data _
    | tail _ hm =>
      cases rest with
      | nil => cases hm
      | cons y ys =>
        show substrOf s (joinLines (x :: y :: ys)) = true
        simp only [substrOf, joinLines, data_append]
        exact containsSeq_append_left s.data _ _ (ih hm)

theorem strOrDefault_ne_empty (s : Option String) (d : String) (hd : d ≠ "") :
    strOrDefault s d ≠ "" := by
  cases s with
  | none => exact hd
  | some t =>
    by_cases ht : t = ""
    · simpa [strOrDefault, ht] using hd
    · simp [strOrDefault, ht]

theorem filter_web_map_eq (l : List GroundingChunk) :
    (l.filter (fun c => c.web.isSome)).map citationOfChunk =
      l.filterMap (fun c => c.web.map (fun w =>
        GroundingSource.mk (strOrDefault w.title "Research Reference") (strOrDefault w.uri ""))) := by
  induction l with
  | nil => rfl
  | cons c rest ih =>
    cases hw : c.web with
    | none => simp [List.filter, List.filterMap, hw, ih]
    | some w => simp [List.filter, List.filterMap, hw, ih, citationOfChunk]

theorem str_ne_empty_of_data (s : String) (h : s.data ≠ []) : s ≠ "" := by
  intro he
  rw [he] at h
  exact h rfl

theorem sourceLink_data_ne_nil (s : GroundingSource) : (sourceLink s).data ≠ [] := by
  simp only [sourceLink, data_append]
  intro h
  rw [List.append_eq_nil, List.append_eq_nil, List.append_eq_nil, List.append_eq_nil] at h
  exact absurd h.1.1.1.1 (by decide)

theorem joinLines_map_ne_empty (x : GroundingSource) (rest : List GroundingSource) :
    joinLines ((x :: rest).map sourceLink) ≠ "" := by
  cases rest with
  | nil =>
    show joinLines [sourceLink x] ≠ ""
    exact str_ne_empty_of_data _ (sourceLink_data_ne_nil x)
  | cons y ys =>
    show joinLines (sourceLink x :: sourceLink y :: ys.map sourceLink) ≠ ""
    apply str_ne_empty_of_data
    simp only [joinLines, data_append]
    intro h
    rw [List.append_eq_nil, List.append_eq_nil] at h
    exact absurd h.1.1 (sourceLink_data_ne_nil x)

/-! The claims. -/

/-- Claim C1: a research call whose every provider attempt fails with a
rate-limit error (status 429, or a message containing "429", "quota" or
"rate limit") retries while the attempt counter is below the fixed ceiling
of 3, waiting `base * 2 ^ n` ms (base 3000) before attempt `n + 1`, and
once the ceiling is reached fails with kind RateLimitExceeded having
issued exactly 4 attempts and no more. -/
theorem rate_limit_retry_exhaustion
    (apiKey : Option String) (provider : Nat → AttemptOutcome) (img : ImageOutcome) (now : String)
    (hkey : keyMissing apiKey = false)
    (hfail : ∀ n, ∃ e, provider n = .failure e ∧ isRateLimit e = true) :
    (performResearch apiKey provider img now).result = .error .RateLimitExceeded ∧
    (performResearch apiKey provider img now).attempts = 4 ∧
    (performResearch apiKey provider img now).waits = (List.range 3).map (fun n => 2 ^ n * 3000) := by
  obtain ⟨e0, p0, r0⟩ := hfail 0
  obtain ⟨e1, p1, r1⟩ := hfail 1
  obtain ⟨e2, p2, r2⟩ := hfail 2
  obtain ⟨e3, p3, r3⟩ := hfail 3
  have h3 : performResearchFrom provider img now 3 =
      { result := .error .RateLimitExceeded, attempts := 1, waits := [], imageAttempts := 0 } := by
    rw [performResearchFrom, p3]
    simp [r3]
  have h2 : performResearchFrom provider img now 2 =
      { result := .error .RateLimitExceeded, attempts := 2, waits := [12000], imageAttempts := 0 } := by
    rw [performResearchFrom, p2]
    simp [r2, h3]
  have h1 : performResearchFrom provider img now 1 =
      { result := .error .RateLimitExceeded, attempts := 3, waits := [6000, 12000], imageAttempts := 0 } := by
    rw [performResearchFrom, p1]
    simp [r1, h2]
  have h0 : performResearchFrom provider img now 0 =
      { result := .error .RateLimitExceeded, attempts := 4, waits := [3000, 6000, 12000], imageAttempts := 0 } := by
    rw [performResearchFrom, p0]
    simp [r0, h1]
  have hr : (List.range 3).map (fun n => 2 ^ n * 3000) = [3000, 6000, 12000] := by decide
  rw [hr]
  refine ⟨?_, ?_, ?_⟩ <;> simp [performResearch, hkey, h0]

/-- Witness for C1: with every attempt failing with message "rate limit",
the call ends in RateLimitExceeded after exactly 4 attempts. -/
theorem rate_limit_retry_exhaustion_witness :
    (performResearch (some "k") (fun _ => .failure ⟨some "rate limit", 0⟩) .failure "t").result
        = .error .RateLimitExceeded ∧
    (performResearch (some "k") (fun _ => .failure ⟨some "rate limit", 0⟩) .failure "t").attempts
        = 4 := by
  have h := rate_limit_retry_exhaustion (some "k") (fun _ => .failure ⟨some "rate limit", 0⟩)
    .failure "t" (by decide) (fun n => ⟨⟨some "rate limit", 0⟩, rfl, by decide⟩)
  exact ⟨h.1, h.2.1⟩

/-- Counterexample to C2 as stated: the error with status 401 and message
"quota exceeded" is an authentication error by the stated definition
(status 401), yet the handler retries it under the rate-limit rule (the
message contains "quota", and that check precedes the auth check), issuing
4 attempts and failing with RateLimitExceeded, not AuthenticationFailed. -/
theorem rate_limit_precedes_auth_counterexample :
    (⟨some "quota exceeded", 401⟩ : ApiError).status = 401 ∧
    (performResearch (some "k") (fun _ => .failure ⟨some "quota exceeded", 401⟩) .failure "t").result
        ≠ .error .AuthenticationFailed ∧
    (performResearch (some "k") (fun _ => .failure ⟨some "quota exceeded", 401⟩) .failure "t").attempts
        = 4 ∧
    (performResearch (some "k") (fun _ => .failure ⟨some "quota exceeded", 401⟩) .failure "t").result
        = .error .RateLimitExceeded := by
  refine ⟨rfl, ?_, ?_, ?_⟩ <;> simp +decide [performResearch, keyMissing, performResearchFrom]

/-- Claim C2 (amended): a research call whose first provider attempt fails
with an authentication/authorization error (status 401/403 or message
containing "key"/"unauthorized") that is not also matched by the
rate-limit pattern fails immediately with kind AuthenticationFailed,
issuing exactly one provider attempt and performing no backoff wait. -/
theorem auth_immediate_failure
    (apiKey : Option String) (provider : Nat → AttemptOutcome) (img : ImageOutcome) (now : String)
    (e : ApiError)
    (hkey : keyMissing apiKey = false)
    (h0 : provider 0 = .failure e)
    (hauth : isAuthError e = true)
    (hrl : isRateLimit e = false) :
    (performResearch apiKey provider img now).result = .error .AuthenticationFailed ∧
    (performResearch apiKey provider img now).attempts = 1 ∧
    (performResearch apiKey provider img now).waits = [] := by
  have h : performResearchFrom provider img now 0 =
      { result := .error .AuthenticationFailed, attempts := 1, waits := [], imageAttempts := 0 } := by
    rw [performResearchFrom, h0]
    simp [hrl, classifyError, hauth]
  refine ⟨?_, ?_, ?_⟩ <;> simp [performResearch, hkey, h]

/-- Witness for the amended C2: a plain 401 failure ends immediately in
AuthenticationFailed after exactly one attempt. -/
theorem auth_immediate_failure_witness :
    (performResearch (some "k") (fun _ => .failure ⟨none, 401⟩) .failure "t").result
        = .error .AuthenticationFailed ∧
    (performResearch (some "k") (fun _ => .failure ⟨none, 401⟩) .failure "t").attempts = 1 := by
  have h := auth_immediate_failure (some "k") (fun _ => .failure ⟨none, 401⟩) .failure "t"
    ⟨none, 401⟩ (by decide) rfl (by decide) (by decide)
  exact ⟨h.1, h.2.1⟩

/-- Claim C3: a failure that is neither rate-limit nor authentication is
classified in order and ends the call after exactly one attempt with no
wait: connectivity keywords give ConnectivityFailed, else status 500+ gives
ProviderUnavailable, else UnknownSynthesisError carrying the original
message (or the fixed fallback text when the message is absent/empty). -/
theorem error_classification_order
    (apiKey : Option String) (provider : Nat → AttemptOutcome) (img : ImageOutcome) (now : String)
    (e : ApiError)
    (hkey : keyMissing apiKey = false)
    (h0 : provider 0 = .failure e)
    (hrl : isRateLimit e = false)
    (hauth : isAuthError e = false) :
    (performResearch apiKey provider img now).attempts = 1 ∧
    (performResearch apiKey provider img now).waits = [] ∧
    (isConnectivityError e = true →
      (performResearch apiKey provider img now).result = .error .ConnectivityFailed) ∧
    (isConnectivityError e = false → 500 ≤ e.status →
      (performResearch apiKey provider img now).result = .error .ProviderUnavailable) ∧
    (isConnectivityError e = false → e.status < 500 →
      (performResearch apiKey provider img now).result = .error
        (.UnknownSynthesisError (strOrDefault e.message "A non-recoverable error occurred during data extraction."))) ∧
    (∀ m, e.message = some m → m ≠ "" → isConnectivityError e = false → e.status < 500 →
      (performResearch apiKey provider img now).result = .error (.UnknownSynthesisError m)) := by
  have h : performResearchFrom provider img now 0 =
      { result := .error (classifyError e), attempts := 1, waits := [], imageAttempts := 0 } := by
    rw [performResearchFrom, h0]
    simp [hrl]
  refine ⟨?_, ?_, ?_, ?_, ?_, ?_⟩
  · simp [performResearch, hkey, h]
  · simp [performResearch, hkey, h]
  · intro hc
    simp [performResearch, hkey, h, classifyError, hauth, hc]
  · intro hc hs
    simp [performResearch, hkey, h, classifyError, hauth, hc, hs]
  · intro hc hs
    have hns : ¬ 500 ≤ e.status := by omega
    simp [performResearch, hkey, h, classifyError, hauth, hc, hns]
  · intro m hm hmne hc hs
    have hns : ¬ 500 ≤ e.status := by omega
    simp [performResearch, hkey, h, classifyError, hauth, hc, hns, strOrDefault, hm, hmne]

/-- Witness for C3: a "network down" failure ends immediately in
ConnectivityFailed after exactly one attempt. -/
theorem error_classification_order_witness :
    (performResearch (some "k") (fun _ => .failure ⟨some "network down", 0⟩) .failure "t").result
        = .error .ConnectivityFailed ∧
    (performResearch (some "k") (fun _ => .failure ⟨some "network down", 0⟩) .failure "t").attempts
        = 1 := by
  have h := error_classification_order (some "k") (fun _ => .failure ⟨some "network down", 0⟩)
    .failure "t" ⟨some "network down", 0⟩ (by decide) rfl (by decide) (by decide)
  exact ⟨h.2.2.1 (by decide), h.1⟩

/-- Claim C4: on a successful first attempt the extracted result has the
response text as content when non-empty and the fixed non-empty
placeholder when empty/undefined; its sources are exactly the grounding
chunks with a `.web` field, in order, mapped to citations whose titles are
the web titles when present (falling back to a placeholder, never the
empty string). -/
theorem extraction_step
    (apiKey : Option String) (provider : Nat → AttemptOutcome) (img : ImageOutcome) (now : String)
    (r : ProviderResponse)
    (hkey : keyMissing apiKey = false)
    (h0 : provider 0 = .success r) :
    ∃ res, (performResearch apiKey provider img now).result = .ok res ∧
      (∀ t, r.text = some t → t ≠ "" → res.content = t) ∧
      (r.text = none ∨ r.text = some "" →
        res.content = "No insights could be generated for this query.") ∧
      res.content ≠ "" ∧
      res.sources = (chunksOf r).filterMap (fun c => c.web.map (fun w =>
        GroundingSource.mk (strOrDefault w.title "Research Reference") (strOrDefault w.uri ""))) ∧
      (∀ s ∈ res.sources, s.title ≠ "") ∧
      (chunksOf r = [] → res.sources = []) := by
  have h : performResearchFrom provider img now 0 =
      { result := .ok
          { query := none, content := contentOf r, sources := sourcesOf r,
            timestamp := now, imageUrl := imageUrlOf img }
        attempts := 1, waits := [], imageAttempts := 1 } := by
    rw [performResearchFrom, h0]
  refine ⟨⟨none, contentOf r, sourcesOf r, now, imageUrlOf img⟩,
    by simp [performResearch, hkey, h], ?_, ?_, ?_, ?_, ?_, ?_⟩
  · intro t ht htne
    simp [contentOf, strOrDefault, ht, htne]
  · intro hcase
    cases hcase with
    | inl hnone => simp [contentOf, strOrDefault, hnone]
    | inr hempty => simp [contentOf, strOrDefault, hempty]
  · exact strOrDefault_ne_empty _ _ (by decide)
  · exact filter_web_map_eq (chunksOf r)
  · intro s hs
    simp only [sourcesOf, List.mem_map] at hs
    obtain ⟨c, _, hc⟩ := hs
    rw [← hc]
    exact strOrDefault_ne_empty _ _ (by decide)
  · intro hempty
    simp [sourcesOf, hempty]

/-- Witness for C4: for a response with text "X" and no grounding chunks,
the result has content "X" and an empty sources list. -/
theorem extraction_step_witness :
    ∃ res,
      (performResearch (some "k") (fun _ => .success ⟨some "X", []⟩) .failure "t").result = .ok res ∧
      res.content = "X" ∧ res.sources = [] := by
  obtain ⟨res, hres, hcontent, _, _, _, _, hempty⟩ :=
    extraction_step (some "k") (fun _ => .success ⟨some "X", []⟩) .failure "t"
      ⟨some "X", []⟩ (by decide) rfl
  exact ⟨res, hres, hcontent "X" rfl (by decide), hempty rfl⟩

/-- Claim C5: when the text step succeeds and the image step throws, the
call still returns the successful result with `imageUrl` unset, the image
failure never reaches the error path, and exactly one image request is
issued (it is never retried). -/
theorem image_failure_swallowed
    (apiKey : Option String) (provider : Nat → AttemptOutcome) (now : String)
    (r : ProviderResponse)
    (hkey : keyMissing apiKey = false)
    (h0 : provider 0 = .success r) :
    (∃ res, (performResearch apiKey provider .failure now).result = .ok res ∧
      res.imageUrl = none) ∧
    (performResearch apiKey provider .failure now).imageAttempts = 1 ∧
    (∀ k, (performResearch apiKey provider .failure now).result ≠ .error k) := by
  have h : performResearchFrom provider ImageOutcome.failure now 0 =
      { result := .ok
          { query := none, content := contentOf r, sources := sourcesOf r,
            timestamp := now, imageUrl := imageUrlOf ImageOutcome.failure }
        attempts := 1, waits := [], imageAttempts := 1 } := by
    rw [performResearchFrom, h0]
  refine ⟨⟨⟨none, contentOf r, sourcesOf r, now, imageUrlOf ImageOutcome.failure⟩,
    by simp [performResearch, hkey, h], by simp [imageUrlOf]⟩, ?_, ?_⟩
  · simp [performResearch, hkey, h]
  · intro k
    simp [performResearch, hkey, h]

/-- Witness for C5: a concrete successful text response with a failed
image step still yields a successful result without an image. -/
theorem image_failure_swallowed_witness :
    (∃ res,
      (performResearch (some "k") (fun _ => .success ⟨some "X", []⟩) .failure "t").result = .ok res ∧
      res.imageUrl = none) ∧
    (performResearch (some "k") (fun _ => .success ⟨some "X", []⟩) .failure "t").imageAttempts = 1 := by
  have h := image_failure_swallowed (some "k") (fun _ => .success ⟨some "X", []⟩) "t"
    ⟨some "X", []⟩ (by decide) rfl
  exact ⟨h.1, h.2.1⟩

/-- Claim C6: with the API-key credential absent the call fails closed
with kind ConfigurationMissing, distinct from every runtime/network error
kind, and issues no provider request at all. -/
theorem missing_key_fails_closed
    (provider : Nat → AttemptOutcome) (img : ImageOutcome) (now : String) :
    (performResearch none provider img now).result = .error .ConfigurationMissing ∧
    (performResearch none provider img now).attempts = 0 ∧
    ErrorKind.ConfigurationMissing ≠ ErrorKind.RateLimitExceeded ∧
    ErrorKind.ConfigurationMissing ≠ ErrorKind.AuthenticationFailed ∧
    ErrorKind.ConfigurationMissing ≠ ErrorKind.ConnectivityFailed ∧
    ErrorKind.ConfigurationMissing ≠ ErrorKind.ProviderUnavailable ∧
    (∀ m, ErrorKind.ConfigurationMissing ≠ ErrorKind.UnknownSynthesisError m) :=
  ⟨rfl, rfl, by decide, by decide, by decide, by decide, fun m h => ErrorKind.noConfusion h⟩

/-- Claim C7: the markdown export follows the fixed template (title line,
generated-on line, Analysis section with the raw content, References
section listing each citation as a markdown link, or the placeholder
sentence when there are none); in particular, for content
"Line1\n\nLine2" and the single citation Paper A, the References section
is exactly the link line and the Analysis section contains both lines. -/
theorem markdown_export_template :
    (∀ data : ResearchResponse, ∃ refs,
      markdownExport data =
        "# ScholarPulse Research Findings\n\n" ++ "**Generated on:** " ++ data.timestamp ++ "\n\n" ++
          "## Analysis\n\n" ++ data.content ++ "\n\n" ++ "## References\n\n" ++ refs ∧
      (data.sources = [] → refs = "No external references cited.") ∧
      (∀ s ∈ data.sources, substrOf (sourceLink s) refs = true)) ∧
    (markdownExport ⟨none, "Line1\n\nLine2", [⟨"Paper A", "http://x"⟩], "T", none⟩ =
        "# ScholarPulse Research Findings\n\n**Generated on:** T\n\n## Analysis\n\nLine1\n\nLine2\n\n## References\n\n- [Paper A](http://x)" ∧
      substrOf "- [Paper A](http://x)"
        (markdownExport ⟨none, "Line1\n\nLine2", [⟨"Paper A", "http://x"⟩], "T", none⟩) = true ∧
      substrOf "Line1" "Line1\n\nLine2" = true ∧
      substrOf "Line2" "Line1\n\nLine2" = true) := by
  constructor
  · intro data
    refine ⟨strOrDefault (some (joinLines (data.sources.map sourceLink)))
      "No external references cited.", rfl, ?_, ?_⟩
    · intro hempty
      simp [hempty, joinLines, strOrDefault]
    · intro s hs
      cases hsrc : data.sources with
      | nil => rw [hsrc] at hs; cases hs
      | cons x rest =>
        rw [hsrc] at hs
        have hne := joinLines_map_ne_empty x rest
        have hrefs : strOrDefault (some (joinLines (List.map sourceLink (x :: rest))))
            "No external references cited." = joinLines (List.map sourceLink (x :: rest)) := by
          simp only [strOrDefault, if_neg hne]
        rw [hrefs]
        exact substrOf_joinLines (sourceLink s) _ (List.mem_map_of_mem sourceLink hs)
  · refine ⟨by decide, by decide, by decide, by decide⟩

/-- Witness for C7: with no citations the References section holds the
placeholder sentence. -/
theorem markdown_export_template_witness :
    ∃ refs,
      markdownExport ⟨none, "c", [], "T", none⟩ =
        "# ScholarPulse Research Findings\n\n" ++ "**Generated on:** " ++ "T" ++ "\n\n" ++
          "## Analysis\n\n" ++ "c" ++ "\n\n" ++ "## References\n\n" ++ refs ∧
      refs = "No external references cited." := by
  obtain ⟨refs, h1, h2, _⟩ := markdown_export_template.1 ⟨none, "c", [], "T", none⟩
  exact ⟨refs, h1, h2 rfl⟩

/-- Claim C8: on a successful call the new result (tagged with the query)
is prepended to the history, leaving every existing entry unchanged; on a
failed call the history is exactly as before and only the error message
and loading flag change. -/
theorem history_append_only
    (st : SessionState) (q : String) (r : ResearchResponse) (k : ErrorKind)
    (hq : trimStr q ≠ "") :
    (handleResearch st q (.ok r)).history = { r with query := some (trimStr q) } :: st.history ∧
    (handleResearch st q (.ok r)).isLoading = false ∧
    (handleResearch st q (.error k)).history = st.history ∧
    (handleResearch st q (.error k)).isLoading = false ∧
    (handleResearch st q (.error k)).error = some (errorMessage k) := by
  refine ⟨?_, ?_, ?_, ?_, ?_⟩ <;> simp [handleResearch, hq]

/-- Witness for C8: a success prepends one entry to an empty history and a
failure leaves it empty. -/
theorem history_append_only_witness :
    (handleResearch ⟨[], false, none⟩ "q" (.ok ⟨none, "c", [], "T", none⟩)).history
        = [⟨some "q", "c", [], "T", none⟩] ∧
    (handleResearch ⟨[], false, none⟩ "q" (.error .ConnectivityFailed)).history = [] := by
  have h := history_append_only ⟨[], false, none⟩ "q" ⟨none, "c", [], "T", none⟩
    .ConnectivityFailed (by decide)
  refine ⟨?_, h.2.2.1⟩
  rw [h.1]
  decide

/-- Claim C9: every mode selects a non-empty system instruction, and no
two distinct modes select the same instruction string. -/
theorem mode_instructions_distinct :
    (∀ m : ResearchMode, systemInstructions m ≠ "") ∧
    (∀ m₁ m₂ : ResearchMode, m₁ ≠ m₂ → systemInstructions m₁ ≠ systemInstructions m₂) := by
  constructor
  · intro m
    cases m <;> decide
  · intro m₁ m₂ hne
    cases m₁ <;> cases m₂ <;> first | exact absurd rfl hne | decide

/-- Witness for C9: the Synthesis and Literature Review instructions differ. -/
theorem mode_instructions_distinct_witness :
    systemInstructions .SYNTHESIS ≠ systemInstructions .LIT_REVIEW :=
  mode_instructions_distinct.2 .SYNTHESIS .LIT_REVIEW (by decide)

/-- Claim C10: for any query and any two modes, the composed provider
requests agree on the model identifier, the contents (the literal query),
the tool list and the thinking budget: only the system instruction can
depend on the mode. -/
theorem request_frame_invariance (q : String) (m₁ m₂ : ResearchMode) :
    (composeRequest q m₁).model = (composeRequest q m₂).model ∧
    (composeRequest q m₁).contents = q ∧
    (composeRequest q m₂).contents = q ∧
    (composeRequest q m₁).config.tools = (composeRequest q m₂).config.tools ∧
    (composeRequest q m₁).config.thinkingConfig = (composeRequest q m₂).config.thinkingConfig :=
  ⟨rfl, rfl, rfl, rfl, rfl⟩

end ScholarAI
